import Mathlib

/-!
Shallow embedding of the table/session/order/bill lifecycle of the
restaurant ordering application (src/shared/schema.ts, src/server/storage.ts,
src/server/routes.ts).

Monetary values are stored as decimal strings in the database and parsed
with `parseFloat` before arithmetic; the embedding carries the parsed
numeric value as a rational.  `Number.prototype.toFixed(2)` is modelled by
`round2` (round half up to a multiple of 1/100).  `Math.random()` is
modelled by a rational parameter `r` with `0 ≤ r < 1`; `Date.now()` and the
`updatedAt` bookkeeping column by a natural-number timestamp `now`; freshly
minted row ids by explicit string parameters (database primary keys).
-/

namespace Resto

/-- Table.status: 'vacant' | 'active' | 'billing' (schema.ts line 62). -/
inductive TableStatus
  | vacant
  | active
  | billing
deriving DecidableEq

/-- Per-item status of an order line (schema.ts orderItemSchema). -/
inductive ItemStatus
  | pending
  | accepted
  | processing
  | completed
  | rejected
deriving DecidableEq

/-- Order.orderStatus: 'active' | 'completed' | 'cancelled' (schema.ts line 94). -/
inductive OrderStatus
  | active
  | completed
  | cancelled
deriving DecidableEq

/-- A row of the `tables` table (schema.ts lines 58-67). -/
structure Table where
  id : String
  adminUid : String
  tableNumber : Nat
  status : TableStatus
  activeSessionId : Option String
  otp : String
  updatedAt : Nat
deriving DecidableEq

/-- An order line item (schema.ts orderItemSchema); `price` is the parsed
numeric value of the stored decimal string. -/
structure OrderItem where
  menuItemId : String
  name : String
  price : ℚ
  quantity : Nat
  status : ItemStatus
deriving DecidableEq

/-- A row of the `orders` table (schema.ts lines 88-97). -/
structure Order where
  id : String
  adminUid : String
  sessionId : String
  tableNumber : Nat
  items : List OrderItem
  orderStatus : OrderStatus
  updatedAt : Nat
deriving DecidableEq

/-- A bill line item (schema.ts billItemSchema). -/
structure BillItem where
  menuItemId : String
  name : String
  price : ℚ
  quantity : Nat
deriving DecidableEq

/-- A row of the `bills` table (schema.ts lines 117-133); monetary columns
carry the numeric value of the stored 2-decimal string. -/
structure Bill where
  id : String
  billNumber : String
  adminUid : String
  sessionId : String
  tableNumber : Nat
  items : List BillItem
  subtotal : ℚ
  discountPercentage : ℚ
  discountAmount : ℚ
  serviceChargePercentage : ℚ
  serviceChargeAmount : ℚ
  totalAmount : ℚ
  isFinal : Bool
deriving DecidableEq

/-- An item sold, as denormalized into sales history (schema.ts salesItemSchema). -/
structure SalesItem where
  name : String
  quantity : Nat
  price : ℚ
deriving DecidableEq

/-- A row of the `sales_history` table (schema.ts lines 152-160). -/
structure SalesHistory where
  adminUid : String
  billId : String
  tableNumber : Nat
  totalAmount : ℚ
  itemsSold : List SalesItem
deriving DecidableEq

/-- The relational store restricted to the four collections the lifecycle
logic touches. -/
structure DBState where
  tables : List Table
  orders : List Order
  bills : List Bill
  salesHistory : List SalesHistory
deriving DecidableEq

/-! ## storage.ts (DatabaseStorage) -/

/-- storage.ts line 203: `String(Math.floor(1000 + Math.random() * 9000))`,
the numeric part; `r` stands for the `Math.random()` draw. -/
def generateOtpNum (r : ℚ) : ℤ := ⌊(1000 : ℚ) + r * 9000⌋

/-- storage.ts generateOtp: the decimal-string conversion of the draw. -/
def generateOtp (r : ℚ) : String := toString (generateOtpNum r).toNat

/-- storage.ts getTable: first row whose primary key matches. -/
def DBState.getTable (s : DBState) (id : String) : Option Table :=
  s.tables.find? fun t => decide (t.id = id)

/-- storage.ts getTableByNumber: first row for (adminUid, tableNumber). -/
def DBState.getTableByNumber (s : DBState) (a : String) (n : Nat) : Option Table :=
  s.tables.find? fun t => decide (t.adminUid = a ∧ t.tableNumber = n)

/-- storage.ts getTablesByAdminUid. -/
def DBState.getTablesByAdminUid (s : DBState) (a : String) : List Table :=
  s.tables.filter fun t => decide (t.adminUid = a)

/-- A SQL `UPDATE tables SET ... WHERE id = ?`: every row with the key gets
the new column values (storage.ts updateTable and its specializations). -/
def DBState.updateTableRow (s : DBState) (id : String) (f : Table → Table) : DBState :=
  { s with tables := s.tables.map fun t => if t.id = id then f t else t }

/-- storage.ts resetTable (lines 206-214): status vacant, session cleared,
fresh OTP, updatedAt bumped. -/
def DBState.resetTable (s : DBState) (id : String) (r : ℚ) (now : Nat) : DBState :=
  s.updateTableRow id fun t =>
    { t with status := .vacant, activeSessionId := none, otp := generateOtp r, updatedAt := now }

/-- storage.ts regenerateTableOtp (lines 216-224): only otp and updatedAt set. -/
def DBState.regenerateTableOtp (s : DBState) (id : String) (r : ℚ) (now : Nat) : DBState :=
  s.updateTableRow id fun t => { t with otp := generateOtp r, updatedAt := now }

/-- storage.ts initializeTables (lines 232-242): for 1..count not already
present for the tenant, insert a vacant table with a fresh OTP; `ids`/`otps`
supply the generated primary key and OTP for each number.  `activeSessionId`
starts null (schema.ts line 63, nullable with no value supplied). -/
def DBState.initializeTables (s : DBState) (a : String) (count : Nat)
    (ids otps : Nat → String) (now : Nat) : DBState :=
  let existingNumbers := (s.getTablesByAdminUid a).map Table.tableNumber
  let added := ((List.range count).map (· + 1)).filterMap fun i =>
    if i ∈ existingNumbers then none
    else some { id := ids i, adminUid := a, tableNumber := i, status := .vacant,
                activeSessionId := none, otp := otps i, updatedAt := now }
  { s with tables := s.tables ++ added }

/-- storage.ts syncTables (lines 244-262): add missing numbers 1..newCount,
then delete (by primary key) each pre-existing table of the tenant whose
number exceeds newCount. -/
def DBState.syncTables (s : DBState) (a : String) (newCount : Nat)
    (ids otps : Nat → String) (now : Nat) : DBState :=
  let existingTables := s.getTablesByAdminUid a
  let existingNumbers := existingTables.map Table.tableNumber
  let added := ((List.range newCount).map (· + 1)).filterMap fun i =>
    if i ∈ existingNumbers then none
    else some { id := ids i, adminUid := a, tableNumber := i, status := .vacant,
                activeSessionId := none, otp := otps i, updatedAt := now }
  let s1 := { s with tables := s.tables ++ added }
  (existingTables.filter fun t => decide (newCount < t.tableNumber)).foldl
    (fun acc t => { acc with tables := acc.tables.filter fun u => decide (¬ u.id = t.id) }) s1

/-- storage.ts getActiveOrdersByTableNumber (lines 316-326). -/
def DBState.getActiveOrdersByTableNumber (s : DBState) (a : String) (n : Nat) : List Order :=
  s.orders.filter fun o =>
    decide (o.adminUid = a ∧ o.tableNumber = n ∧ o.orderStatus = .active)

/-- storage.ts getOrdersBySessionId (lines 312-314). -/
def DBState.getOrdersBySessionId (s : DBState) (sid : String) : List Order :=
  s.orders.filter fun o => decide (o.sessionId = sid)

/-- A SQL `UPDATE orders SET ... WHERE id = ?` (storage.ts updateOrder). -/
def DBState.updateOrderRow (s : DBState) (id : String) (f : Order → Order) : DBState :=
  { s with orders := s.orders.map fun o => if o.id = id then f o else o }

/-- storage.ts cancelTable (lines 274-297): look the table up, set
orderStatus=cancelled on each currently active order of that table (one
update per fetched row), then reset the table in place with a fresh OTP. -/
def DBState.cancelTable (s : DBState) (id : String) (r : ℚ) (now : Nat) :
    Option Table × DBState :=
  match s.getTable id with
  | none => (none, s)
  | some table =>
    let activeOrders := s.getActiveOrdersByTableNumber table.adminUid table.tableNumber
    let s1 := activeOrders.foldl
      (fun acc o => acc.updateOrderRow o.id fun x =>
        { x with orderStatus := .cancelled, updatedAt := now }) s
    let s2 := s1.updateTableRow id fun t =>
      { t with status := .vacant, activeSessionId := none,
               otp := generateOtp r, updatedAt := now }
    (s2.getTable id, s2)

/-- storage.ts getBill. -/
def DBState.getBill (s : DBState) (id : String) : Option Bill :=
  s.bills.find? fun b => decide (b.id = id)

/-- storage.ts getBillsByAdminUid (ordering by date is irrelevant here). -/
def DBState.getBillsByAdminUid (s : DBState) (a : String) : List Bill :=
  s.bills.filter fun b => decide (b.adminUid = a)

/-- `String.padStart(4, "0")` of a decimal numeral. -/
def padStart4 (str : String) : String :=
  String.mk (List.replicate (4 - str.length) '0') ++ str

/-- storage.ts getNextBillNumber (lines 392-398): `BILL-YYYYMMDD-NNNN` where
NNNN is 1 + the tenant's current bill count, zero-padded to 4; `dateStr`
stands for the formatted current date. -/
def DBState.getNextBillNumber (s : DBState) (a : String) (dateStr : String) : String :=
  let nextNumber := (s.getBillsByAdminUid a).length + 1
  "BILL-" ++ dateStr ++ "-" ++ padStart4 (toString nextNumber)

/-! ## routes.ts -/

/-- Outcome of POST /api/tables/join (routes.ts lines 602-646).  `joined`
carries the response's `sessionId`, `isExistingSession` and `tableNumber`. -/
inductive JoinResult
  | missingFields
  | tableNotFound
  | invalidOtp
  | joined (sessionId : String) (isExistingSession : Bool) (tableNumber : Nat)
deriving DecidableEq

/-- routes.ts line 630: `session-${Date.now()}-${randomSuffix}`. -/
def makeSessionId (now : Nat) (rand : String) : String :=
  "session-" ++ toString now ++ "-" ++ rand

/-- JavaScript truthiness of the nullable `activeSessionId` column: null and
the empty string are falsy. -/
def isTruthy : Option String → Bool
  | none => false
  | some str => decide (¬ str = "")

/-- POST /api/tables/join (routes.ts lines 602-646).  Missing/falsy body
fields are rejected first (line 606: `!adminUid || !tableNumber || !otp`;
a table number of 0 and empty strings are falsy); then the table is looked
up, the OTP compared, and either the existing session is returned with
isExistingSession=true and no mutation, or a fresh session id is minted and
the table bound to it. -/
def joinTable (s : DBState) (a : String) (n : Nat) (otp : String)
    (now : Nat) (rand : String) : JoinResult × DBState :=
  if a = "" ∨ n = 0 ∨ otp = "" then (.missingFields, s)
  else
    match s.getTableByNumber a n with
    | none => (.tableNotFound, s)
    | some table =>
      if ¬ table.otp = otp then (.invalidOtp, s)
      else if table.status = .active ∧ isTruthy table.activeSessionId then
        (.joined (table.activeSessionId.getD "") true table.tableNumber, s)
      else
        let newSessionId := makeSessionId now rand
        let s1 := s.updateTableRow table.id fun t =>
          { t with status := .active, activeSessionId := some newSessionId, updatedAt := now }
        (.joined newSessionId false table.tableNumber, s1)

/-- Outcome of the admin table routes (reset / cancel / regenerate-otp). -/
inductive RouteStatus
  | notFound
  | forbidden
  | badRequest
  | ok
deriving DecidableEq

/-- POST /api/tables/:id/reset (routes.ts lines 565-579): existence and
ownership checks, then storage.resetTable. -/
def resetTableRoute (s : DBState) (reqA : String) (id : String) (r : ℚ) (now : Nat) :
    RouteStatus × DBState :=
  match s.getTable id with
  | none => (.notFound, s)
  | some t =>
    if ¬ t.adminUid = reqA then (.forbidden, s)
    else (.ok, s.resetTable id r now)

/-- POST /api/tables/:id/cancel (routes.ts lines 582-599): existence,
ownership and non-vacancy checks, then storage.cancelTable. -/
def cancelTableRoute (s : DBState) (reqA : String) (id : String) (r : ℚ) (now : Nat) :
    RouteStatus × DBState :=
  match s.getTable id with
  | none => (.notFound, s)
  | some t =>
    if ¬ t.adminUid = reqA then (.forbidden, s)
    else if t.status = .vacant then (.badRequest, s)
    else (.ok, (s.cancelTable id r now).2)

/-- POST /api/tables/:id/regenerate-otp (routes.ts lines 649-663): existence
and ownership checks only — no vacancy check — then storage.regenerateTableOtp. -/
def regenerateOtpRoute (s : DBState) (reqA : String) (id : String) (r : ℚ) (now : Nat) :
    RouteStatus × DBState :=
  match s.getTable id with
  | none => (.notFound, s)
  | some t =>
    if ¬ t.adminUid = reqA then (.forbidden, s)
    else (.ok, s.regenerateTableOtp id r now)

/-- Body of POST /api/orders as insertOrderSchema admits it (schema.ts lines
223-227): the drizzle-zod insert schema types `items` as arbitrary JSON (no
emptiness or shape validation) and leaves `orderStatus` optional with the
column default 'active'. -/
structure OrderRequest where
  adminUid : String
  sessionId : String
  tableNumber : Nat
  items : List OrderItem
  orderStatus : Option OrderStatus
deriving DecidableEq

/-- POST /api/orders (routes.ts lines 715-736): insert one order row, then
(if the table exists) bind the table to the supplied session id with status
active. -/
def placeOrder (s : DBState) (req : OrderRequest) (newOrderId : String) (now : Nat) :
    Order × DBState :=
  let order : Order :=
    { id := newOrderId, adminUid := req.adminUid, sessionId := req.sessionId,
      tableNumber := req.tableNumber, items := req.items,
      orderStatus := req.orderStatus.getD .active, updatedAt := now }
  let s1 := { s with orders := s.orders ++ [order] }
  let s2 :=
    match s1.getTableByNumber req.adminUid req.tableNumber with
    | some table => s1.updateTableRow table.id fun t =>
        { t with status := .active, activeSessionId := some req.sessionId, updatedAt := now }
    | none => s1
  (order, s2)

/-- `Number.prototype.toFixed(2)`: round half up to a multiple of 1/100
(exact on every 2-decimal amount that appears here). -/
def round2 (q : ℚ) : ℚ := (⌊q * 100 + 1 / 2⌋ : ℤ) / 100

/-- Body of POST /api/bills; the `(discountPercentage || 0)` fallbacks are
modelled by optional percentages defaulting to 0. -/
structure BillRequest where
  adminUid : String
  sessionId : String
  tableNumber : Nat
  items : List BillItem
  discountPercentage : Option ℚ
  serviceChargePercentage : Option ℚ
deriving DecidableEq

/-- Subtotal reduction of routes.ts lines 848-851:
`items.reduce((sum, item) => sum + parseFloat(item.price) * item.quantity, 0)`. -/
def billSubtotal (items : List BillItem) : ℚ :=
  items.foldl (fun sum item => sum + item.price * (item.quantity : ℚ)) 0

/-- POST /api/bills (routes.ts lines 837-883): tenant check, bill number,
totals computation, draft bill insert (isFinal=false), then the table set to
billing. -/
def generateBillRoute (s : DBState) (reqA : String) (req : BillRequest)
    (newBillId dateStr : String) (now : Nat) : Option Bill × DBState :=
  if ¬ reqA = req.adminUid then (none, s)
  else
    let billNumber := s.getNextBillNumber req.adminUid dateStr
    let subtotal := billSubtotal req.items
    let discountAmount := subtotal * (req.discountPercentage.getD 0) / 100
    let afterDiscount := subtotal - discountAmount
    let serviceChargeAmount := afterDiscount * (req.serviceChargePercentage.getD 0) / 100
    let totalAmount := afterDiscount + serviceChargeAmount
    let bill : Bill :=
      { id := newBillId, billNumber := billNumber, adminUid := req.adminUid,
        sessionId := req.sessionId, tableNumber := req.tableNumber, items := req.items,
        subtotal := round2 subtotal,
        discountPercentage := round2 (req.discountPercentage.getD 0),
        discountAmount := round2 discountAmount,
        serviceChargePercentage := round2 (req.serviceChargePercentage.getD 0),
        serviceChargeAmount := round2 serviceChargeAmount,
        totalAmount := round2 totalAmount,
        isFinal := false }
    let s1 := { s with bills := s.bills ++ [bill] }
    let s2 :=
      match s1.getTableByNumber req.adminUid req.tableNumber with
      | some table => s1.updateTableRow table.id fun t =>
          { t with status := .billing, updatedAt := now }
      | none => s1
    (some bill, s2)

/-- Outcome of POST /api/bills/:id/finalize; `success` carries the bill
object as read before the update (which is what the route responds with). -/
inductive FinalizeResult
  | notFound
  | forbidden
  | success (bill : Bill)
deriving DecidableEq

/-- POST /api/bills/:id/finalize (routes.ts lines 886-929): look the bill up
(NO isFinal check), mark it final, append one sales-history record, set
orderStatus=completed on every order of the bill's session (one update per
fetched row), then reset the bill's table if it exists. -/
def finalizeBillRoute (s : DBState) (reqA : String) (billId : String)
    (r : ℚ) (now : Nat) : FinalizeResult × DBState :=
  match s.getBill billId with
  | none => (.notFound, s)
  | some bill =>
    if ¬ reqA = bill.adminUid then (.forbidden, s)
    else
      let s1 : DBState := { s with bills := s.bills.map (fun b =>
        if b.id = bill.id then { b with isFinal := true } else b) }
      let s2 : DBState := { s1 with salesHistory := s1.salesHistory ++
        [{ adminUid := bill.adminUid, billId := bill.id, tableNumber := bill.tableNumber,
           totalAmount := bill.totalAmount,
           itemsSold := bill.items.map fun i =>
             { name := i.name, quantity := i.quantity, price := i.price } }] }
      let sessionOrders := s2.getOrdersBySessionId bill.sessionId
      let s3 : DBState := sessionOrders.foldl
        (fun acc o => acc.updateOrderRow o.id fun x =>
          { x with orderStatus := .completed, updatedAt := now }) s2
      let s4 : DBState :=
        match s3.getTableByNumber bill.adminUid bill.tableNumber with
        | some table => s3.resetTable table.id r now
        | none => s3
      (.success bill, s4)

/-! ## Derived notions used by the claims -/

/-- The occupancy invariant: a table is vacant exactly when it carries no
session. -/
def tableOk (t : Table) : Prop := t.status = .vacant ↔ t.activeSessionId = none

/-- States reachable from the empty store through the Table Registry
operations (initialize, sync, reset, cancel, regenerate-otp) and the
session-creating operations (join, order placement's table binding). -/
inductive Reach : DBState → Prop
  | empty : Reach ⟨[], [], [], []⟩
  | initTables {s : DBState} (a : String) (count : Nat) (ids otps : Nat → String) (now : Nat) :
      Reach s → Reach (s.initializeTables a count ids otps now)
  | sync {s : DBState} (a : String) (newCount : Nat) (ids otps : Nat → String) (now : Nat) :
      Reach s → Reach (s.syncTables a newCount ids otps now)
  | reset {s : DBState} (reqA id : String) (r : ℚ) (now : Nat) :
      Reach s → Reach (resetTableRoute s reqA id r now).2
  | cancel {s : DBState} (reqA id : String) (r : ℚ) (now : Nat) :
      Reach s → Reach (cancelTableRoute s reqA id r now).2
  | regen {s : DBState} (reqA id : String) (r : ℚ) (now : Nat) :
      Reach s → Reach (regenerateOtpRoute s reqA id r now).2
  | join {s : DBState} (a : String) (n : Nat) (otp : String) (now : Nat) (rand : String) :
      Reach s → Reach (joinTable s a n otp now rand).2
  | place {s : DBState} (req : OrderRequest) (oid : String) (now : Nat) :
      Reach s → Reach (placeOrder s req oid now).2

/-- Sales-history rows archived for one bill. -/
def salesCountForBill (s : DBState) (billId : String) : Nat :=
  (s.salesHistory.filter fun h => decide (h.billId = billId)).length

/-- The spec's discount formula: `discountAmount = subtotal × discountPct / 100`. -/
def discountAmountOf (items : List BillItem) (d : ℚ) : ℚ := billSubtotal items * d / 100

/-- The spec's `afterDiscount = subtotal − discountAmount`. -/
def afterDiscountOf (items : List BillItem) (d : ℚ) : ℚ :=
  billSubtotal items - discountAmountOf items d

/-- The spec's `serviceChargeAmount = afterDiscount × serviceChargePct / 100`. -/
def serviceChargeOf (items : List BillItem) (d sc : ℚ) : ℚ :=
  afterDiscountOf items d * sc / 100

/-- The spec's `total = afterDiscount + serviceChargeAmount`. -/
def totalOf (items : List BillItem) (d sc : ℚ) : ℚ :=
  afterDiscountOf items d + serviceChargeOf items d sc

/-! ## Concrete fixtures for witnesses and counterexamples -/

/-- A single-table fixture. -/
def mkTable (status : TableStatus) (sid : Option String) (otp : String) : Table :=
  { id := "t1", adminUid := "a", tableNumber := 1, status := status,
    activeSessionId := sid, otp := otp, updatedAt := 0 }

/-- A one-table store. -/
def oneTableState (t : Table) : DBState :=
  { tables := [t], orders := [], bills := [], salesHistory := [] }

/-- The spec's worked billing example: 2 × 100.00 and 1 × 50.00. -/
def demoItems : List BillItem :=
  [{ menuItemId := "m1", name := "A", price := 100, quantity := 2 },
   { menuItemId := "m2", name := "B", price := 50, quantity := 1 }]

/-- A billing request carrying `demoItems`, discount 10 %, service charge 5 %. -/
def demoBillReq : BillRequest :=
  { adminUid := "a", sessionId := "sess-9", tableNumber := 1, items := demoItems,
    discountPercentage := some 10, serviceChargePercentage := some 5 }

/-- The empty store. -/
def emptyDB : DBState := { tables := [], orders := [], bills := [], salesHistory := [] }

/-- A billing request with an empty item list and absent percentages. -/
def emptyBillReq : BillRequest :=
  { adminUid := "a", sessionId := "sess-0", tableNumber := 1, items := [],
    discountPercentage := none, serviceChargePercentage := none }

/-- A finalizable draft bill for tenant "a", session "sess-9", table 1 (the
spec's end-to-end scenario: 2 × 120.00, no discount, 10 % service charge). -/
def demoBill : Bill :=
  { id := "b1", billNumber := "BILL-20260101-0001", adminUid := "a", sessionId := "sess-9",
    tableNumber := 1,
    items := [{ menuItemId := "mX", name := "Item A", price := 120, quantity := 2 }],
    subtotal := 240, discountPercentage := 0, discountAmount := 0,
    serviceChargePercentage := 10, serviceChargeAmount := 24,
    totalAmount := 264, isFinal := false }

/-- An order-row fixture. -/
def mkOrder (id sid : String) (n : Nat) (st : OrderStatus) : Order :=
  { id := id, adminUid := "a", sessionId := sid, tableNumber := n,
    items := [{ menuItemId := "m1", name := "A", price := 100, quantity := 2,
                status := .pending }],
    orderStatus := st, updatedAt := 0 }

/-- An order-placement request whose item list is empty. -/
def emptyItemsOrderReq : OrderRequest :=
  { adminUid := "a", sessionId := "sess-9", tableNumber := 1, items := [],
    orderStatus := some .active }

/-- An order-placement request with one pending cart line. -/
def demoOrderReq : OrderRequest :=
  { adminUid := "a", sessionId := "sess-9", tableNumber := 1,
    items := [{ menuItemId := "mX", name := "Item A", price := 120, quantity := 2,
                status := .pending }],
    orderStatus := some .active }

/-- Store on which finalize is exercised twice: one draft bill, one bound
table, two session orders and one unrelated order. -/
def finalizeFixture : DBState :=
  { tables := [mkTable .billing (some "sess-9") "4821"],
    orders := [mkOrder "o1" "sess-9" 1 .active, mkOrder "o2" "sess-9" 1 .active,
               mkOrder "o3" "other-session" 2 .active],
    bills := [demoBill], salesHistory := [] }

/-! ## Helper lemmas -/

theorem find?_map_of_pred {α : Type} (f : α → α) (p : α → Bool)
    (h : ∀ x, p (f x) = p x) (l : List α) :
    (l.map f).find? p = (l.find? p).map f := by
  induction l with
  | nil => rfl
  | cons a l ih =>
    cases hpa : p a with
    | true => simp [List.find?_cons, h a, hpa]
    | false => simp [List.find?_cons, h a, hpa, ih]

theorem getTable_some {s : DBState} {id : String} {t : Table}
    (h : s.getTable id = some t) : t.id = id ∧ t ∈ s.tables := by
  rw [DBState.getTable] at h
  exact ⟨by simpa using List.find?_some h, List.mem_of_find?_eq_some h⟩

theorem getTableByNumber_some {s : DBState} {a : String} {n : Nat} {t : Table}
    (h : s.getTableByNumber a n = some t) :
    t.adminUid = a ∧ t.tableNumber = n ∧ t ∈ s.tables := by
  rw [DBState.getTableByNumber] at h
  have hp : t.adminUid = a ∧ t.tableNumber = n := by simpa using List.find?_some h
  exact ⟨hp.1, hp.2, List.mem_of_find?_eq_some h⟩

theorem getBill_some {s : DBState} {id : String} {b : Bill}
    (h : s.getBill id = some b) : b.id = id ∧ b ∈ s.bills := by
  rw [DBState.getBill] at h
  exact ⟨by simpa using List.find?_some h, List.mem_of_find?_eq_some h⟩

theorem foldl_updateOrderRow_tables (found : List Order) (s : DBState) (g : Order → Order) :
    (found.foldl (fun acc o => acc.updateOrderRow o.id g) s).tables = s.tables := by
  induction found generalizing s with
  | nil => rfl
  | cons o os ih => rw [List.foldl_cons, ih]; rfl

theorem foldl_updateOrderRow_bills (found : List Order) (s : DBState) (g : Order → Order) :
    (found.foldl (fun acc o => acc.updateOrderRow o.id g) s).bills = s.bills := by
  induction found generalizing s with
  | nil => rfl
  | cons o os ih => rw [List.foldl_cons, ih]; rfl

theorem foldl_updateOrderRow_sales (found : List Order) (s : DBState) (g : Order → Order) :
    (found.foldl (fun acc o => acc.updateOrderRow o.id g) s).salesHistory = s.salesHistory := by
  induction found generalizing s with
  | nil => rfl
  | cons o os ih => rw [List.foldl_cons, ih]; rfl

theorem foldl_updateOrderRow_orders (found : List Order) (s : DBState) (g : Order → Order) :
    (found.foldl (fun acc o => acc.updateOrderRow o.id g) s).orders
      = found.foldl (fun l o => l.map fun x => if x.id = o.id then g x else x) s.orders := by
  induction found generalizing s with
  | nil => rfl
  | cons o os ih => rw [List.foldl_cons, List.foldl_cons, ih]; rfl

theorem foldl_map_fusion {α : Type} (found : List α) (l : List α) (h : α → α → α) :
    found.foldl (fun acc o => acc.map (h o)) l
      = l.map fun x => found.foldl (fun y o => h o y) x := by
  induction found generalizing l with
  | nil => simp
  | cons o os ih =>
    rw [List.foldl_cons, ih, List.map_map]
    rfl

theorem foldl_step_no_match (g : Order → Order) :
    ∀ (found : List Order) (y : Order), (∀ o ∈ found, ¬ y.id = o.id) →
      found.foldl (fun y o => if y.id = o.id then g y else y) y = y
  | [], _, _ => rfl
  | o :: os, y, h => by
    rw [List.foldl_cons, if_neg (h o (by simp))]
    exact foldl_step_no_match g os y fun o' ho' => h o' (by simp [ho'])

theorem filter_foldl_update_eq_map (l : List Order) (p : Order → Prop) [DecidablePred p]
    (g : Order → Order) (hg : ∀ o, (g o).id = o.id)
    (hnd : (l.map Order.id).Nodup) :
    (l.filter fun o => decide (p o)).foldl
        (fun acc o => acc.map fun x => if x.id = o.id then g x else x) l
      = l.map fun x => if p x then g x else x := by
  rw [foldl_map_fusion]
  refine List.map_congr_left fun x hx => ?_
  by_cases hpx : p x
  · have hxf : x ∈ l.filter fun o => decide (p o) := List.mem_filter.mpr ⟨hx, by simpa⟩
    obtain ⟨l1, l2, hsplit⟩ := List.append_of_mem hxf
    have hnd2 : ((l.filter fun o => decide (p o)).map Order.id).Nodup :=
      ((List.filter_sublist l).map Order.id).nodup hnd
    rw [hsplit, List.map_append, List.map_cons, List.nodup_append] at hnd2
    obtain ⟨-, hxl2, hdisj⟩ := hnd2
    have h1 : ∀ o ∈ l1, ¬ x.id = o.id := by
      intro o ho he
      exact hdisj (List.mem_map_of_mem Order.id ho) (by simp [he])
    have h2 : ∀ o ∈ l2, ¬ (g x).id = o.id := by
      intro o ho he
      rw [hg x] at he
      exact (List.nodup_cons.mp hxl2).1 (by
        rw [he]; exact List.mem_map_of_mem Order.id ho)
    rw [if_pos hpx, hsplit, List.foldl_append, foldl_step_no_match g l1 x h1,
      List.foldl_cons, if_pos rfl, foldl_step_no_match g l2 (g x) h2]
  · rw [if_neg hpx]
    apply foldl_step_no_match
    intro o ho he
    have hol : o ∈ l := List.mem_of_mem_filter ho
    have hpo : p o := by simpa using List.of_mem_filter ho
    exact hpx ((List.inj_on_of_nodup_map hnd hx hol he) ▸ hpo)

/-! ## Occupancy invariant preservation (towards C4) -/

theorem tablesOk_updateTableRow {s : DBState} {id : String} {f : Table → Table}
    (hs : ∀ t ∈ s.tables, tableOk t) (hf : ∀ t, tableOk t → tableOk (f t)) :
    ∀ t ∈ (s.updateTableRow id f).tables, tableOk t := by
  intro t ht
  rw [DBState.updateTableRow] at ht
  simp only [List.mem_map] at ht
  obtain ⟨u, hu, rfl⟩ := ht
  by_cases h : u.id = id
  · rw [if_pos h]; exact hf u (hs u hu)
  · rw [if_neg h]; exact hs u hu

theorem tablesOk_initializeTables {s : DBState} (a : String) (count : Nat)
    (ids otps : Nat → String) (now : Nat) (hs : ∀ t ∈ s.tables, tableOk t) :
    ∀ t ∈ (s.initializeTables a count ids otps now).tables, tableOk t := by
  intro t ht
  simp only [DBState.initializeTables, List.mem_append, List.mem_filterMap] at ht
  rcases ht with ht | ⟨i, -, hi⟩
  · exact hs t ht
  · by_cases hmem : i ∈ (s.getTablesByAdminUid a).map Table.tableNumber
    · rw [if_pos hmem] at hi; cases hi
    · rw [if_neg hmem] at hi
      cases hi
      simp [tableOk]

theorem mem_tables_foldl_filter (ts : List Table) (s : DBState) :
    ∀ t ∈ (ts.foldl (fun acc x =>
        { acc with tables := acc.tables.filter fun u => decide (¬ u.id = x.id) }) s).tables,
      t ∈ s.tables := by
  induction ts generalizing s with
  | nil => intro t ht; exact ht
  | cons x xs ih =>
    intro t ht
    exact List.mem_of_mem_filter (ih _ t ht)

theorem tablesOk_syncTables {s : DBState} (a : String) (newCount : Nat)
    (ids otps : Nat → String) (now : Nat) (hs : ∀ t ∈ s.tables, tableOk t) :
    ∀ t ∈ (s.syncTables a newCount ids otps now).tables, tableOk t := by
  intro t ht
  rw [DBState.syncTables] at ht
  have ht1 := mem_tables_foldl_filter _ _ t ht
  simp only [List.mem_append, List.mem_filterMap] at ht1
  rcases ht1 with ht1 | ⟨i, -, hi⟩
  · exact hs t ht1
  · by_cases hmem : i ∈ (s.getTablesByAdminUid a).map Table.tableNumber
    · rw [if_pos hmem] at hi; cases hi
    · rw [if_neg hmem] at hi
      cases hi
      simp [tableOk]

theorem joinTable_state (s : DBState) (a : String) (n : Nat) (otp : String)
    (now : Nat) (rand : String) :
    (joinTable s a n otp now rand).2 = s ∨
    ∃ tid, (joinTable s a n otp now rand).2
        = s.updateTableRow tid fun t =>
            { t with status := .active, activeSessionId := some (makeSessionId now rand),
                     updatedAt := now } := by
  unfold joinTable
  split
  · left; rfl
  · split
    · left; rfl
    · split
      · left; rfl
      · split
        · left; rfl
        · right; exact ⟨_, rfl⟩

theorem tablesOk_joinTable {s : DBState} (a : String) (n : Nat) (otp : String)
    (now : Nat) (rand : String) (hs : ∀ t ∈ s.tables, tableOk t) :
    ∀ t ∈ (joinTable s a n otp now rand).2.tables, tableOk t := by
  rcases joinTable_state s a n otp now rand with h | ⟨tid, h⟩
  · rw [h]; exact hs
  · rw [h]
    exact tablesOk_updateTableRow hs fun t _ => by simp [tableOk]

theorem placeOrder_state (s : DBState) (req : OrderRequest) (oid : String) (now : Nat) :
    (placeOrder s req oid now).2.tables = s.tables ∨
    ∃ tid, (placeOrder s req oid now).2.tables
        = s.tables.map fun t => if t.id = tid then
            { t with status := .active, activeSessionId := some req.sessionId,
                     updatedAt := now } else t := by
  unfold placeOrder
  dsimp only
  split
  · right; exact ⟨_, rfl⟩
  · left; rfl

theorem tablesOk_placeOrder {s : DBState} (req : OrderRequest) (oid : String) (now : Nat)
    (hs : ∀ t ∈ s.tables, tableOk t) :
    ∀ t ∈ (placeOrder s req oid now).2.tables, tableOk t := by
  rcases placeOrder_state s req oid now with h | ⟨tid, h⟩
  · rw [h]; exact hs
  · rw [h]
    intro t ht
    simp only [List.mem_map] at ht
    obtain ⟨u, hu, rfl⟩ := ht
    by_cases hid : u.id = tid
    · rw [if_pos hid]; simp [tableOk]
    · rw [if_neg hid]; exact hs u hu

theorem resetTableRoute_state (s : DBState) (reqA id : String) (r : ℚ) (now : Nat) :
    (resetTableRoute s reqA id r now).2 = s ∨
    (resetTableRoute s reqA id r now).2 = s.resetTable id r now := by
  unfold resetTableRoute
  split
  · left; rfl
  · split
    · left; rfl
    · right; rfl

theorem tablesOk_resetTableRoute {s : DBState} (reqA id : String) (r : ℚ) (now : Nat)
    (hs : ∀ t ∈ s.tables, tableOk t) :
    ∀ t ∈ (resetTableRoute s reqA id r now).2.tables, tableOk t := by
  rcases resetTableRoute_state s reqA id r now with h | h <;> rw [h]
  · exact hs
  · exact tablesOk_updateTableRow hs fun t _ => by simp [tableOk]

theorem cancelTableRoute_state (s : DBState) (reqA id : String) (r : ℚ) (now : Nat) :
    (cancelTableRoute s reqA id r now).2 = s ∨
    (cancelTableRoute s reqA id r now).2 = (s.cancelTable id r now).2 := by
  unfold cancelTableRoute
  split
  · left; rfl
  · split
    · left; rfl
    · split
      · left; rfl
      · right; rfl

theorem cancelTable_tables (s : DBState) (id : String) (r : ℚ) (now : Nat) :
    (s.cancelTable id r now).2.tables = s.tables ∨
    (s.cancelTable id r now).2.tables
      = s.tables.map fun t => if t.id = id then
          { t with status := .vacant, activeSessionId := none,
                   otp := generateOtp r, updatedAt := now } else t := by
  unfold DBState.cancelTable
  split
  · left; rfl
  · right
    dsimp only
    rw [DBState.updateTableRow]
    simp only [foldl_updateOrderRow_tables]

theorem tablesOk_cancelTableRoute {s : DBState} (reqA id : String) (r : ℚ) (now : Nat)
    (hs : ∀ t ∈ s.tables, tableOk t) :
    ∀ t ∈ (cancelTableRoute s reqA id r now).2.tables, tableOk t := by
  rcases cancelTableRoute_state s reqA id r now with h | h <;> rw [h]
  · exact hs
  · rcases cancelTable_tables s id r now with h2 | h2 <;> rw [h2]
    · exact hs
    · intro t ht
      simp only [List.mem_map] at ht
      obtain ⟨u, hu, rfl⟩ := ht
      by_cases hid : u.id = id
      · rw [if_pos hid]; simp [tableOk]
      · rw [if_neg hid]; exact hs u hu

theorem regenerateOtpRoute_state (s : DBState) (reqA id : String) (r : ℚ) (now : Nat) :
    (regenerateOtpRoute s reqA id r now).2 = s ∨
    (regenerateOtpRoute s reqA id r now).2 = s.regenerateTableOtp id r now := by
  unfold regenerateOtpRoute
  split
  · left; rfl
  · split
    · left; rfl
    · right; rfl

theorem tablesOk_regenerateOtpRoute {s : DBState} (reqA id : String) (r : ℚ) (now : Nat)
    (hs : ∀ t ∈ s.tables, tableOk t) :
    ∀ t ∈ (regenerateOtpRoute s reqA id r now).2.tables, tableOk t := by
  rcases regenerateOtpRoute_state s reqA id r now with h | h <;> rw [h]
  · exact hs
  · exact tablesOk_updateTableRow hs fun t h => by simpa [tableOk] using h

/-! ## Claim C4 -/

/-- Claim C4: the invariant `table.status == vacant ⟺ table.activeSessionId
== null` holds for every table of every store reachable from the empty
store through the Table Registry operations (initialize, sync, reset,
cancel, regenerateCode) and the session-creating operations (join, order
placement's table binding). -/
theorem reach_table_invariant (s : DBState) (h : Reach s) :
    ∀ t ∈ s.tables, tableOk t := by
  induction h with
  | empty => intro t ht; simp at ht
  | initTables a count ids otps now _ ih => exact tablesOk_initializeTables a count ids otps now ih
  | sync a newCount ids otps now _ ih => exact tablesOk_syncTables a newCount ids otps now ih
  | reset reqA id r now _ ih => exact tablesOk_resetTableRoute reqA id r now ih
  | cancel reqA id r now _ ih => exact tablesOk_cancelTableRoute reqA id r now ih
  | regen reqA id r now _ ih => exact tablesOk_regenerateOtpRoute reqA id r now ih
  | join a n otp now rand _ ih => exact tablesOk_joinTable a n otp now rand ih
  | place req oid now _ ih => exact tablesOk_placeOrder req oid now ih

/-- The invariant theorem evaluated on a concrete reachable store: the one
table created by `initialize` on the empty store satisfies the invariant. -/
theorem reach_table_invariant_witness :
    tableOk { id := "t1", adminUid := "a", tableNumber := 1, status := .vacant,
              activeSessionId := none, otp := "4821", updatedAt := 0 } :=
  reach_table_invariant _
    (Reach.initTables "a" 1 (fun _ => "t1") (fun _ => "4821") 0 Reach.empty) _ (by decide)

/-! ## Claim C10 -/

/-- Claim C10: regenerate-otp succeeds on a table in any status (the backend
checks only existence and ownership, never vacancy) and changes only the
table's otp field plus updatedAt: every other collection is untouched and
the table's status and activeSessionId are preserved. -/
theorem regenerate_otp_frame (s : DBState) (reqA id : String) (t : Table) (r : ℚ) (now : Nat)
    (hfind : s.getTable id = some t) (hauth : t.adminUid = reqA) :
    (regenerateOtpRoute s reqA id r now).1 = .ok ∧
    (regenerateOtpRoute s reqA id r now).2.tables
      = s.tables.map (fun u => if u.id = id then
          { u with otp := generateOtp r, updatedAt := now } else u) ∧
    (regenerateOtpRoute s reqA id r now).2.orders = s.orders ∧
    (regenerateOtpRoute s reqA id r now).2.bills = s.bills ∧
    (regenerateOtpRoute s reqA id r now).2.salesHistory = s.salesHistory ∧
    ((regenerateOtpRoute s reqA id r now).2.getTable id).map
        (fun u => (u.status, u.activeSessionId))
      = some (t.status, t.activeSessionId) := by
  have hroute : regenerateOtpRoute s reqA id r now = (.ok, s.regenerateTableOtp id r now) := by
    unfold regenerateOtpRoute
    rw [hfind]
    dsimp only
    rw [if_neg (not_not_intro hauth)]
  rw [hroute]
  refine ⟨rfl, rfl, rfl, rfl, rfl, ?_⟩
  have hid : ∀ u : Table,
      (decide ((if u.id = id then
        { u with otp := generateOtp r, updatedAt := now } else u).id = id) : Bool)
      = decide (u.id = id) := by
    intro u
    by_cases hu : u.id = id <;> simp [hu]
  show ((s.regenerateTableOtp id r now).tables.find? fun u => decide (u.id = id)).map _ = _
  rw [DBState.regenerateTableOtp, DBState.updateTableRow]
  show ((s.tables.map _).find? _).map _ = _
  rw [find?_map_of_pred _ _ hid]
  rw [DBState.getTable] at hfind
  rw [hfind]
  simp [(getTable_some (s := s) (by rw [DBState.getTable]; exact hfind)).1]

/-- The frame theorem evaluated on a concrete occupied table: rotating the
code of an active table succeeds and keeps its status and session. -/
theorem regenerate_otp_frame_witness :
    (regenerateOtpRoute (oneTableState (mkTable .active (some "sess-9") "4821"))
        "a" "t1" 0 5).1 = .ok ∧
    ((regenerateOtpRoute (oneTableState (mkTable .active (some "sess-9") "4821"))
        "a" "t1" 0 5).2.getTable "t1").map (fun u => (u.status, u.activeSessionId))
      = some (.active, some "sess-9") := by
  have h := regenerate_otp_frame (oneTableState (mkTable .active (some "sess-9") "4821"))
    "a" "t1" (mkTable .active (some "sess-9") "4821") 0 5 (by decide) rfl
  exact ⟨h.1, h.2.2.2.2.2⟩

/-! ## Claim C7 -/

/-- Claim C7 counterexample: no possible draw of `Math.random()` produces a
code below 1000, so no generated code ever has a leading zero and the
codes do not range over "0000"–"9999" (refuting the claimed existence of a
leading-zero outcome). -/
theorem generateOtp_no_low_draw :
    (¬ ∃ r : ℚ, 0 ≤ r ∧ r < 1 ∧ generateOtpNum r < 1000) ∧
    generateOtpNum 0 = 1000 := by
  constructor
  · rintro ⟨r, h0, h1, hlt⟩
    have h : (1000 : ℤ) ≤ generateOtpNum r := by
      rw [generateOtpNum]
      refine Int.le_floor.mpr ?_
      push_cast
      nlinarith
    omega
  · rw [generateOtpNum]; norm_num

/-- Claim C7 (amended): every generated code is the plain decimal numeral of
a uniform draw from 1000–9999 — always exactly 4 decimal digits, never a
leading zero, no padding involved. -/
theorem generateOtp_range (r : ℚ) (h0 : 0 ≤ r) (h1 : r < 1) :
    1000 ≤ generateOtpNum r ∧ generateOtpNum r ≤ 9999 ∧
    (Nat.digits 10 (generateOtpNum r).toNat).length = 4 ∧
    generateOtp r = toString (generateOtpNum r).toNat := by
  have hlo : (1000 : ℤ) ≤ generateOtpNum r := by
    rw [generateOtpNum]
    refine Int.le_floor.mpr ?_
    push_cast
    nlinarith
  have hhi : generateOtpNum r ≤ 9999 := by
    have h : generateOtpNum r < 10000 := by
      rw [generateOtpNum]
      refine Int.floor_lt.mpr ?_
      push_cast
      nlinarith
    omega
  refine ⟨hlo, hhi, ?_, rfl⟩
  have h1000 : 1000 ≤ (generateOtpNum r).toNat := by omega
  have h9999 : (generateOtpNum r).toNat < 10000 := by omega
  rw [Nat.digits_len 10 _ (by norm_num) (by omega)]
  have hlog : Nat.log 10 (generateOtpNum r).toNat = 3 :=
    Nat.log_eq_of_pow_le_of_lt_pow (by norm_num; omega) (by norm_num; omega)
  omega

/-- The range theorem evaluated at the concrete draw 1/2 (code 5500). -/
theorem generateOtp_range_witness :
    1000 ≤ generateOtpNum (1 / 2) ∧ generateOtpNum (1 / 2) ≤ 9999 ∧
    (Nat.digits 10 (generateOtpNum (1 / 2)).toNat).length = 4 ∧
    generateOtp (1 / 2) = toString (generateOtpNum (1 / 2)).toNat :=
  generateOtp_range (1 / 2) (by norm_num) (by norm_num)

/-! ## Claim C1 -/

/-- Claim C1 (evidence of the code bug): the finalize route never checks
`isFinal`, so finalizing the same bill twice succeeds both times and
archives a second SalesHistory record — after the second call the store
holds 2 records for the bill, where the spec requires the count to stay 1. -/
theorem finalize_twice_double_writes :
    (finalizeBillRoute finalizeFixture "a" "b1" 0 1).1 = .success demoBill ∧
    (finalizeBillRoute finalizeFixture "a" "b1" 0 1).2.getBill "b1"
      = some { demoBill with isFinal := true } ∧
    salesCountForBill (finalizeBillRoute finalizeFixture "a" "b1" 0 1).2 "b1" = 1 ∧
    (finalizeBillRoute (finalizeBillRoute finalizeFixture "a" "b1" 0 1).2 "a" "b1" 0 2).1
      = .success { demoBill with isFinal := true } ∧
    salesCountForBill
        (finalizeBillRoute (finalizeBillRoute finalizeFixture "a" "b1" 0 1).2 "a" "b1" 0 2).2
        "b1" = 2 := by
  decide

/-! ## Claim C3 -/

theorem DBState.ext' {X Y : DBState} (h1 : X.tables = Y.tables) (h2 : X.orders = Y.orders)
    (h3 : X.bills = Y.bills) (h4 : X.salesHistory = Y.salesHistory) : X = Y := by
  cases X; cases Y
  cases h1; cases h2; cases h3; cases h4
  rfl

theorem finalizeBillRoute_eq (s : DBState) (reqA billId : String) (bill : Bill) (tbl : Table)
    (r : ℚ) (now : Nat)
    (hbill : s.getBill billId = some bill)
    (hauth : reqA = bill.adminUid)
    (htbl : s.getTableByNumber bill.adminUid bill.tableNumber = some tbl)
    (hnd : (s.orders.map Order.id).Nodup) :
    finalizeBillRoute s reqA billId r now
      = (.success bill,
         { tables := s.tables.map fun u => if u.id = tbl.id then
             { u with status := .vacant, activeSessionId := none,
                      otp := generateOtp r, updatedAt := now } else u,
           orders := s.orders.map fun o => if o.sessionId = bill.sessionId then
             { o with orderStatus := .completed, updatedAt := now } else o,
           bills := s.bills.map fun b => if b.id = bill.id then
             { b with isFinal := true } else b,
           salesHistory := s.salesHistory ++
             [{ adminUid := bill.adminUid, billId := bill.id, tableNumber := bill.tableNumber,
                totalAmount := bill.totalAmount,
                itemsSold := bill.items.map fun i =>
                  { name := i.name, quantity := i.quantity, price := i.price } }] }) := by
  unfold finalizeBillRoute
  rw [hbill]
  dsimp only
  rw [if_neg (not_not_intro hauth)]
  have horders : ∀ X : DBState, X.orders = s.orders →
      (X.getOrdersBySessionId bill.sessionId).foldl
          (fun l o => l.map fun x => if x.id = o.id then
            { x with orderStatus := OrderStatus.completed, updatedAt := now } else x) X.orders
        = s.orders.map fun o => if o.sessionId = bill.sessionId then
            { o with orderStatus := .completed, updatedAt := now } else o := by
    intro X hX
    rw [DBState.getOrdersBySessionId, hX]
    exact filter_foldl_update_eq_map s.orders (fun o => o.sessionId = bill.sessionId) _
      (fun o => rfl) hnd
  split
  next table heq =>
    have htbl2 : some table = some tbl := by
      rw [← heq, DBState.getTableByNumber, foldl_updateOrderRow_tables]
      rw [DBState.getTableByNumber] at htbl
      exact htbl
    cases htbl2
    refine congrArg _ ?_
    refine DBState.ext' ?_ ?_ ?_ ?_
    · simp only [DBState.resetTable, DBState.updateTableRow]
      rw [foldl_updateOrderRow_tables]
    · simp only [DBState.resetTable, DBState.updateTableRow]
      rw [foldl_updateOrderRow_orders]
      exact horders _ rfl
    · simp only [DBState.resetTable, DBState.updateTableRow]
      rw [foldl_updateOrderRow_bills]
    · simp only [DBState.resetTable, DBState.updateTableRow]
      rw [foldl_updateOrderRow_sales]
  next heq =>
    exfalso
    rw [DBState.getTableByNumber, foldl_updateOrderRow_tables] at heq
    rw [DBState.getTableByNumber] at htbl
    dsimp only at heq
    exact Option.noConfusion (htbl.symm.trans heq)

/-- Claim C3: on an existing non-final bill whose table exists, one finalize
call (in the source's order) marks exactly that bill final, appends exactly
one SalesHistory record carrying the bill's totalAmount and its items
(name, quantity, price), sets orderStatus=completed on exactly the orders
whose sessionId equals the bill's sessionId, and resets the bill's table to
vacant with activeSessionId cleared and a freshly generated code.  (Order
ids are pairwise distinct: they are database primary keys.) -/
theorem finalize_cascade (s : DBState) (reqA billId : String) (bill : Bill) (tbl : Table)
    (r : ℚ) (now : Nat)
    (hbill : s.getBill billId = some bill)
    (hfinal : bill.isFinal = false)
    (hauth : reqA = bill.adminUid)
    (htbl : s.getTableByNumber bill.adminUid bill.tableNumber = some tbl)
    (hnd : (s.orders.map Order.id).Nodup) :
    (finalizeBillRoute s reqA billId r now).1 = .success bill ∧
    (finalizeBillRoute s reqA billId r now).2.bills
      = s.bills.map (fun b => if b.id = bill.id then { b with isFinal := true } else b) ∧
    (finalizeBillRoute s reqA billId r now).2.salesHistory
      = s.salesHistory ++
        [{ adminUid := bill.adminUid, billId := bill.id, tableNumber := bill.tableNumber,
           totalAmount := bill.totalAmount,
           itemsSold := bill.items.map fun i =>
             { name := i.name, quantity := i.quantity, price := i.price } }] ∧
    (finalizeBillRoute s reqA billId r now).2.orders
      = s.orders.map (fun o => if o.sessionId = bill.sessionId then
          { o with orderStatus := .completed, updatedAt := now } else o) ∧
    (finalizeBillRoute s reqA billId r now).2.tables
      = s.tables.map (fun u => if u.id = tbl.id then
          { u with status := .vacant, activeSessionId := none,
                   otp := generateOtp r, updatedAt := now } else u) ∧
    salesCountForBill (finalizeBillRoute s reqA billId r now).2 billId
      = salesCountForBill s billId + 1 := by
  rw [finalizeBillRoute_eq s reqA billId bill tbl r now hbill hauth htbl hnd]
  refine ⟨rfl, rfl, rfl, rfl, rfl, ?_⟩
  simp [salesCountForBill, List.filter_append, (getBill_some hbill).1]

/-- The cascade theorem evaluated on the concrete finalize fixture. -/
theorem finalize_cascade_witness :
    (finalizeBillRoute finalizeFixture "a" "b1" 0 9).1 = .success demoBill ∧
    (finalizeBillRoute finalizeFixture "a" "b1" 0 9).2.orders
      = finalizeFixture.orders.map (fun o => if o.sessionId = demoBill.sessionId then
          { o with orderStatus := .completed, updatedAt := 9 } else o) := by
  have h := finalize_cascade finalizeFixture "a" "b1" demoBill
    (mkTable .billing (some "sess-9") "4821") 0 9 (by decide) rfl rfl (by decide) (by decide)
  exact ⟨h.1, h.2.2.2.1⟩

/-! ## Claim C2 -/

theorem generateBillRoute_fields (s : DBState) (reqA : String) (req : BillRequest)
    (bid dateStr : String) (now : Nat) (hauth : reqA = req.adminUid) :
    ∃ b, (generateBillRoute s reqA req bid dateStr now).1 = some b ∧
      b.subtotal = round2 (billSubtotal req.items) ∧
      b.discountAmount = round2 (discountAmountOf req.items (req.discountPercentage.getD 0)) ∧
      b.serviceChargeAmount
        = round2 (serviceChargeOf req.items (req.discountPercentage.getD 0)
            (req.serviceChargePercentage.getD 0)) ∧
      b.totalAmount
        = round2 (totalOf req.items (req.discountPercentage.getD 0)
            (req.serviceChargePercentage.getD 0)) ∧
      b.isFinal = false := by
  unfold generateBillRoute
  rw [if_neg (not_not_intro hauth)]
  exact ⟨_, rfl, rfl, rfl, rfl, rfl, rfl⟩

/-- Claim C2: bill generation computes subtotal = Σ price×quantity,
discountAmount = subtotal×d/100, serviceChargeAmount = (subtotal −
discountAmount)×s/100 and total = afterDiscount + serviceChargeAmount, each
stored rounded to 2 decimals; on the worked example (2 × 100.00 + 1 × 50.00,
d = 10, s = 5) it yields 250, 25, 11.25 (= 45/4) and 236.25 (= 945/4), and
an empty item list yields subtotal 0 with no special-casing. -/
theorem bill_totals_formula (s : DBState) (reqA : String) (req : BillRequest)
    (bid dateStr : String) (now : Nat) (hauth : reqA = req.adminUid) :
    (∃ b, (generateBillRoute s reqA req bid dateStr now).1 = some b ∧
      b.subtotal = round2 (billSubtotal req.items) ∧
      b.discountAmount = round2 (discountAmountOf req.items (req.discountPercentage.getD 0)) ∧
      b.serviceChargeAmount
        = round2 (serviceChargeOf req.items (req.discountPercentage.getD 0)
            (req.serviceChargePercentage.getD 0)) ∧
      b.totalAmount
        = round2 (totalOf req.items (req.discountPercentage.getD 0)
            (req.serviceChargePercentage.getD 0)) ∧
      b.isFinal = false) ∧
    ((generateBillRoute emptyDB "a" demoBillReq bid dateStr now).1.map Bill.subtotal
        = some 250 ∧
     (generateBillRoute emptyDB "a" demoBillReq bid dateStr now).1.map Bill.discountAmount
        = some 25 ∧
     (generateBillRoute emptyDB "a" demoBillReq bid dateStr now).1.map Bill.serviceChargeAmount
        = some (45 / 4) ∧
     (generateBillRoute emptyDB "a" demoBillReq bid dateStr now).1.map Bill.totalAmount
        = some (945 / 4)) ∧
    (generateBillRoute emptyDB "a" emptyBillReq bid dateStr now).1.map Bill.subtotal
        = some 0 := by
  refine ⟨generateBillRoute_fields s reqA req bid dateStr now hauth, ?_, ?_⟩
  · obtain ⟨b, hb, h1, h2, h3, h4, -⟩ :=
      generateBillRoute_fields emptyDB "a" demoBillReq bid dateStr now rfl
    rw [hb, Option.map_some', Option.map_some', Option.map_some', Option.map_some',
      h1, h2, h3, h4]
    norm_num [round2, billSubtotal, demoBillReq, demoItems, discountAmountOf,
      afterDiscountOf, serviceChargeOf, totalOf]
  · obtain ⟨b, hb, h1, -, -, -, -⟩ :=
      generateBillRoute_fields emptyDB "a" emptyBillReq bid dateStr now rfl
    rw [hb, Option.map_some', h1]
    norm_num [round2, billSubtotal, emptyBillReq]

/-- The billing theorem evaluated at the worked example request. -/
theorem bill_totals_formula_witness :
    ∃ b, (generateBillRoute emptyDB "a" demoBillReq "b9" "20260101" 0).1 = some b ∧
      b.subtotal = round2 (billSubtotal demoBillReq.items) ∧
      b.discountAmount
        = round2 (discountAmountOf demoBillReq.items (demoBillReq.discountPercentage.getD 0)) ∧
      b.serviceChargeAmount
        = round2 (serviceChargeOf demoBillReq.items (demoBillReq.discountPercentage.getD 0)
            (demoBillReq.serviceChargePercentage.getD 0)) ∧
      b.totalAmount
        = round2 (totalOf demoBillReq.items (demoBillReq.discountPercentage.getD 0)
            (demoBillReq.serviceChargePercentage.getD 0)) ∧
      b.isFinal = false :=
  (bill_totals_formula emptyDB "a" demoBillReq "b9" "20260101" 0 rfl).1

/-! ## Claims C5 and C6 (join) -/

theorem generateOtp_zero : generateOtp 0 = "1000" := by
  have h : generateOtpNum 0 = 1000 := by rw [generateOtpNum]; norm_num
  rw [generateOtp, h]
  rfl

theorem makeSessionId_ne_empty (now : Nat) (rand : String) : ¬ makeSessionId now rand = "" := by
  intro h
  have h2 := congrArg String.length h
  rw [makeSessionId] at h2
  simp only [String.length_append] at h2
  have h3 : "session-".length = 8 := rfl
  have h4 : "".length = 0 := rfl
  have h5 : "-".length = 1 := rfl
  omega

theorem joinTable_existing (s : DBState) (a : String) (n : Nat) (t : Table) (sid : String)
    (now : Nat) (rand : String)
    (ha : ¬ a = "") (hn : ¬ n = 0) (hotp : ¬ t.otp = "")
    (hfind : s.getTableByNumber a n = some t)
    (hst : t.status = .active) (hsid : t.activeSessionId = some sid) (hne : ¬ sid = "") :
    joinTable s a n t.otp now rand = (.joined sid true t.tableNumber, s) := by
  unfold joinTable
  rw [if_neg (by rintro (h | h | h); exacts [ha h, hn h, hotp h]), hfind]
  dsimp only
  rw [if_neg (not_not_intro rfl), if_pos ⟨hst, by rw [hsid]; simp [isTruthy, hne]⟩, hsid]
  rfl

theorem joinTable_fresh (s : DBState) (a : String) (n : Nat) (t : Table)
    (now : Nat) (rand : String)
    (ha : ¬ a = "") (hn : ¬ n = 0) (hotp : ¬ t.otp = "")
    (hfind : s.getTableByNumber a n = some t)
    (hnc : ¬ (t.status = .active ∧ isTruthy t.activeSessionId = true)) :
    joinTable s a n t.otp now rand
      = (.joined (makeSessionId now rand) false t.tableNumber,
         s.updateTableRow t.id fun u =>
           { u with status := .active, activeSessionId := some (makeSessionId now rand),
                    updatedAt := now }) := by
  unfold joinTable
  rw [if_neg (by rintro (h | h | h); exacts [ha h, hn h, hotp h]), hfind]
  dsimp only
  rw [if_neg (not_not_intro rfl), if_neg hnc]

theorem getTableByNumber_updateTableRow (s : DBState) (a : String) (n : Nat) (tid : String)
    (f : Table → Table)
    (hf : ∀ u, (f u).adminUid = u.adminUid ∧ (f u).tableNumber = u.tableNumber) :
    (s.updateTableRow tid f).getTableByNumber a n
      = (s.getTableByNumber a n).map fun u => if u.id = tid then f u else u := by
  rw [DBState.updateTableRow, DBState.getTableByNumber, DBState.getTableByNumber]
  exact find?_map_of_pred _ _
    (fun u => by by_cases hu : u.id = tid <;> simp [hu, (hf u).1, (hf u).2]) s.tables

/-- Claim C5 (amended): on a table in status active whose bound session id is
non-null and non-empty (every session id the system mints is), join with the
correct (non-empty) code returns that session id with isExistingSession=true
and mutates nothing; and from any table state, two successive joins with the
correct code return the same session id both times, the second one with
isExistingSession=true and no further mutation. -/
theorem join_rejoin_idempotent (s : DBState) (a : String) (n : Nat) (t : Table)
    (now now2 : Nat) (rand rand2 : String)
    (ha : ¬ a = "") (hn : ¬ n = 0)
    (hfind : s.getTableByNumber a n = some t) (hotp : ¬ t.otp = "") :
    (∀ sid, t.status = .active → t.activeSessionId = some sid → ¬ sid = "" →
       joinTable s a n t.otp now rand = (.joined sid true t.tableNumber, s)) ∧
    (∃ sid, ((joinTable s a n t.otp now rand).1 = .joined sid true t.tableNumber ∨
             (joinTable s a n t.otp now rand).1 = .joined sid false t.tableNumber) ∧
       joinTable (joinTable s a n t.otp now rand).2 a n t.otp now2 rand2
         = (.joined sid true t.tableNumber, (joinTable s a n t.otp now rand).2)) := by
  constructor
  · intro sid hst hsid hne
    exact joinTable_existing s a n t sid now rand ha hn hotp hfind hst hsid hne
  · by_cases hc : t.status = .active ∧ isTruthy t.activeSessionId = true
    · obtain ⟨hst, htr⟩ := hc
      cases hsid : t.activeSessionId with
      | none => rw [hsid] at htr; simp [isTruthy] at htr
      | some sid =>
        have hne : ¬ sid = "" := by
          rw [hsid] at htr
          simpa [isTruthy] using htr
        have h1 := joinTable_existing s a n t sid now rand ha hn hotp hfind hst hsid hne
        refine ⟨sid, Or.inl (by rw [h1]), ?_⟩
        rw [h1]
        exact joinTable_existing s a n t sid now2 rand2 ha hn hotp hfind hst hsid hne
    · have h1 := joinTable_fresh s a n t now rand ha hn hotp hfind hc
      refine ⟨makeSessionId now rand, Or.inr (by rw [h1]), ?_⟩
      rw [h1]
      have hfind2 : (s.updateTableRow t.id fun u =>
            { u with status := .active, activeSessionId := some (makeSessionId now rand),
                     updatedAt := now }).getTableByNumber a n
          = some ({ t with
                    status := .active,
                    activeSessionId := some (makeSessionId now rand),
                    updatedAt := now }) := by
        rw [getTableByNumber_updateTableRow s a n t.id
          (fun u => { u with status := .active,
                             activeSessionId := some (makeSessionId now rand),
                             updatedAt := now })
          (fun u => ⟨rfl, rfl⟩), hfind]
        simp
      exact joinTable_existing
        (s.updateTableRow t.id fun u =>
          { u with status := .active, activeSessionId := some (makeSessionId now rand),
                   updatedAt := now })
        a n
        ({ t with
           status := .active,
           activeSessionId := some (makeSessionId now rand),
           updatedAt := now })
        (makeSessionId now rand) now2 rand2 ha hn hotp
        hfind2 rfl rfl (makeSessionId_ne_empty now rand)

/-- The idempotent-rejoin theorem evaluated on a concrete active table. -/
theorem join_rejoin_idempotent_witness :
    joinTable (oneTableState (mkTable .active (some "sess-9") "1234")) "a" 1 "1234" 7 "xyz"
      = (.joined "sess-9" true 1, oneTableState (mkTable .active (some "sess-9") "1234")) :=
  (join_rejoin_idempotent (oneTableState (mkTable .active (some "sess-9") "1234"))
      "a" 1 (mkTable .active (some "sess-9") "1234") 7 8 "xyz" "uvw"
      (by decide) (by decide) (by decide) (by decide)).1
    "sess-9" rfl rfl (by decide)

/-- Claim C5 counterexample: a table can be active with a non-null but
empty-string session id (JavaScript truthiness treats "" as no session);
there join with the correct code mints a fresh session id, returns
isExistingSession=false, and mutates the table — refuting the claim as
stated for every non-null activeSessionId. -/
theorem join_empty_session_counterexample :
    (joinTable (oneTableState (mkTable .active (some "") "1234")) "a" 1 "1234" 7 "xyz").1
      = .joined "session-7-xyz" false 1 ∧
    ¬ (joinTable (oneTableState (mkTable .active (some "") "1234")) "a" 1 "1234" 7 "xyz").2
      = oneTableState (mkTable .active (some "") "1234") := by
  decide

/-- Claim C6 (amended): a presented code that differs from the stored one
never yields a session and never mutates: a non-empty wrong code fails with
Unauthorized (invalid OTP), and the empty code is rejected even earlier by
the missing-field check. -/
theorem join_wrong_code (s : DBState) (a : String) (n : Nat) (t : Table) (c : String)
    (now : Nat) (rand : String)
    (ha : ¬ a = "") (hn : ¬ n = 0)
    (hfind : s.getTableByNumber a n = some t) (hc : ¬ c = t.otp) :
    joinTable s a n c now rand
      = ((if c = "" then .missingFields else .invalidOtp), s) ∧
    ∀ sid ex tn, ¬ (joinTable s a n c now rand).1 = .joined sid ex tn := by
  have h1 : joinTable s a n c now rand
      = ((if c = "" then .missingFields else .invalidOtp), s) := by
    by_cases hce : c = ""
    · rw [if_pos hce]
      unfold joinTable
      rw [if_pos (Or.inr (Or.inr hce))]
    · rw [if_neg hce]
      unfold joinTable
      rw [if_neg (by rintro (h | h | h); exacts [ha h, hn h, hce h]), hfind]
      dsimp only
      rw [if_pos fun he => hc he.symm]
  refine ⟨h1, ?_⟩
  intro sid ex tn hjoin
  rw [h1] at hjoin
  by_cases hce : c = ""
  · rw [if_pos hce] at hjoin
    exact JoinResult.noConfusion hjoin
  · rw [if_neg hce] at hjoin
    exact JoinResult.noConfusion hjoin

/-- The wrong-code theorem evaluated on a concrete active table. -/
theorem join_wrong_code_witness :
    joinTable (oneTableState (mkTable .active (some "sess-9") "1234")) "a" 1 "9999" 0 "r"
      = ((if ("9999" : String) = "" then .missingFields else .invalidOtp),
         oneTableState (mkTable .active (some "sess-9") "1234")) :=
  (join_wrong_code (oneTableState (mkTable .active (some "sess-9") "1234"))
      "a" 1 (mkTable .active (some "sess-9") "1234") "9999" 0 "r"
      (by decide) (by decide) (by decide) (by decide)).1

/-- Claim C6 counterexample: the empty presented code (which differs from
the stored 4-digit code) is answered with the missing-field BadRequest, not
with Unauthorized — refuting "always fails with Unauthorized". -/
theorem join_empty_code_counterexample :
    joinTable (oneTableState (mkTable .active (some "sess-9") "1234")) "a" 1 "" 0 "r"
      = (.missingFields, oneTableState (mkTable .active (some "sess-9") "1234")) ∧
    ¬ (JoinResult.missingFields = .invalidOtp) := by
  decide

/-! ## Claim C8 -/

/-- Claim C8 (amended): order placement stores the client-supplied item
snapshots verbatim (the repository's customer UI sends each item with menu
item id, name, unit price, quantity and status pending, and orderStatus
active, which is also the column default), creates exactly one Order, and
as a side effect binds the order's table (when it exists) to status active
with activeSessionId equal to the supplied session id; the handler itself
performs no item-list validation, so non-emptiness is only a client-side
precondition. -/
theorem place_order_effects (s : DBState) (req : OrderRequest) (oid : String) (now : Nat)
    (tbl : Table) (hfind : s.getTableByNumber req.adminUid req.tableNumber = some tbl) :
    (placeOrder s req oid now).1
      = { id := oid, adminUid := req.adminUid, sessionId := req.sessionId,
          tableNumber := req.tableNumber, items := req.items,
          orderStatus := req.orderStatus.getD .active, updatedAt := now } ∧
    (placeOrder s req oid now).2.orders
      = s.orders ++
        [{ id := oid, adminUid := req.adminUid, sessionId := req.sessionId,
           tableNumber := req.tableNumber, items := req.items,
           orderStatus := req.orderStatus.getD .active, updatedAt := now }] ∧
    (placeOrder s req oid now).2.tables
      = s.tables.map (fun u => if u.id = tbl.id then
          { u with status := .active, activeSessionId := some req.sessionId,
                   updatedAt := now } else u) ∧
    (placeOrder s req oid now).2.bills = s.bills ∧
    (placeOrder s req oid now).2.salesHistory = s.salesHistory := by
  unfold placeOrder
  dsimp only
  split
  next table heq =>
    have htbl2 : some table = some tbl := by
      rw [← heq, DBState.getTableByNumber]
      rw [DBState.getTableByNumber] at hfind
      exact hfind
    cases htbl2
    exact ⟨rfl, rfl, rfl, rfl, rfl⟩
  next heq =>
    exfalso
    rw [DBState.getTableByNumber] at heq hfind
    exact Option.noConfusion (hfind.symm.trans heq)

/-- The placement theorem evaluated on a concrete request: one order row is
appended and the table is bound to the supplied session. -/
theorem place_order_effects_witness :
    (placeOrder (oneTableState (mkTable .vacant none "1234")) demoOrderReq "o1" 3).2.orders
      = [{ id := "o1", adminUid := demoOrderReq.adminUid,
           sessionId := demoOrderReq.sessionId, tableNumber := demoOrderReq.tableNumber,
           items := demoOrderReq.items, orderStatus := demoOrderReq.orderStatus.getD .active,
           updatedAt := 3 }] :=
  (place_order_effects (oneTableState (mkTable .vacant none "1234")) demoOrderReq "o1" 3
    (mkTable .vacant none "1234") (by decide)).2.1

/-- Claim C8 counterexample: a request with an empty item list is not
rejected — the handler creates the order anyway (orders go from 0 to 1,
with an empty snapshot list), refuting "empty-items requests are rejected". -/
theorem place_order_empty_items_accepted :
    (placeOrder (oneTableState (mkTable .vacant none "1234")) emptyItemsOrderReq "o1" 3).1.items
      = [] ∧
    (placeOrder (oneTableState (mkTable .vacant none "1234")) emptyItemsOrderReq "o1" 3).2.orders.length
      = 1 ∧
    (placeOrder (oneTableState (mkTable .vacant none "1234")) emptyItemsOrderReq "o1" 3).1.orderStatus
      = .active := by
  decide

/-! ## Claim C9 -/

theorem cancelTableRoute_eq (s : DBState) (reqA id : String) (t : Table) (r : ℚ) (now : Nat)
    (hfind : s.getTable id = some t) (hauth : t.adminUid = reqA) (hnv : ¬ t.status = .vacant)
    (hnd : (s.orders.map Order.id).Nodup) :
    cancelTableRoute s reqA id r now
      = (.ok,
         { tables := s.tables.map fun u => if u.id = id then
             { u with status := .vacant, activeSessionId := none,
                      otp := generateOtp r, updatedAt := now } else u,
           orders := s.orders.map fun o =>
             if o.adminUid = t.adminUid ∧ o.tableNumber = t.tableNumber ∧
                o.orderStatus = .active
             then { o with orderStatus := .cancelled, updatedAt := now } else o,
           bills := s.bills,
           salesHistory := s.salesHistory }) := by
  unfold cancelTableRoute
  rw [hfind]
  dsimp only
  rw [if_neg (not_not_intro hauth), if_neg hnv]
  unfold DBState.cancelTable
  rw [hfind]
  dsimp only
  refine congrArg _ ?_
  refine DBState.ext' ?_ ?_ ?_ ?_
  · simp only [DBState.updateTableRow]
    rw [foldl_updateOrderRow_tables]
  · simp only [DBState.updateTableRow]
    show (List.foldl _ s _).orders = _
    rw [foldl_updateOrderRow_orders]
    rw [DBState.getActiveOrdersByTableNumber]
    exact filter_foldl_update_eq_map s.orders
      (fun o => o.adminUid = t.adminUid ∧ o.tableNumber = t.tableNumber ∧
        o.orderStatus = .active) _ (fun o => rfl) hnd
  · simp only [DBState.updateTableRow]
    rw [foldl_updateOrderRow_bills]
  · simp only [DBState.updateTableRow]
    rw [foldl_updateOrderRow_sales]

/-- Claim C9 (amended): cancelling a non-vacant table succeeds, sets
orderStatus=cancelled on exactly the orders of that table that were in
orderStatus=active (orders in other statuses, and other tables' orders,
unchanged), and leaves the table vacant with activeSessionId=null and a
freshly generated code — which, being an independent random draw, may by
chance coincide with the previous code.  (Order ids are pairwise distinct:
they are database primary keys.) -/
theorem cancel_route_effects (s : DBState) (reqA id : String) (t : Table) (r : ℚ) (now : Nat)
    (hfind : s.getTable id = some t) (hauth : t.adminUid = reqA) (hnv : ¬ t.status = .vacant)
    (hnd : (s.orders.map Order.id).Nodup) :
    (cancelTableRoute s reqA id r now).1 = .ok ∧
    (cancelTableRoute s reqA id r now).2.orders
      = s.orders.map (fun o =>
          if o.adminUid = t.adminUid ∧ o.tableNumber = t.tableNumber ∧
             o.orderStatus = .active
          then { o with orderStatus := .cancelled, updatedAt := now } else o) ∧
    (cancelTableRoute s reqA id r now).2.tables
      = s.tables.map (fun u => if u.id = id then
          { u with status := .vacant, activeSessionId := none,
                   otp := generateOtp r, updatedAt := now } else u) ∧
    (cancelTableRoute s reqA id r now).2.bills = s.bills ∧
    (cancelTableRoute s reqA id r now).2.salesHistory = s.salesHistory := by
  rw [cancelTableRoute_eq s reqA id t r now hfind hauth hnv hnd]
  exact ⟨rfl, rfl, rfl, rfl, rfl⟩

/-- The cancel theorem evaluated on a concrete table with one active order,
one completed order and one unrelated order. -/
theorem cancel_route_effects_witness :
    (cancelTableRoute
        { tables := [mkTable .active (some "sess-9") "4821"],
          orders := [mkOrder "o1" "sess-9" 1 .active, mkOrder "o2" "sess-9" 1 .completed,
                     mkOrder "o3" "other" 2 .active],
          bills := [], salesHistory := [] } "a" "t1" 0 5).2.orders
      = [{ mkOrder "o1" "sess-9" 1 .active with orderStatus := .cancelled, updatedAt := 5 },
         mkOrder "o2" "sess-9" 1 .completed, mkOrder "o3" "other" 2 .active] := by
  have h := cancel_route_effects
    { tables := [mkTable .active (some "sess-9") "4821"],
      orders := [mkOrder "o1" "sess-9" 1 .active, mkOrder "o2" "sess-9" 1 .completed,
                 mkOrder "o3" "other" 2 .active],
      bills := [], salesHistory := [] } "a" "t1" (mkTable .active (some "sess-9") "4821")
    0 5 (by decide) rfl (by decide) (by decide)
  rw [h.2.1]
  decide

/-- Claim C9 counterexample: with the random draw 0 the freshly generated
code is "1000"; cancelling a table whose code already is "1000" therefore
leaves the SAME code in place, refuting "a new code different from the code
it had immediately before cancellation". -/
theorem cancel_same_otp_counterexample :
    (cancelTableRoute (oneTableState (mkTable .active (some "sess-9") "1000"))
        "a" "t1" 0 5).1 = .ok ∧
    ((cancelTableRoute (oneTableState (mkTable .active (some "sess-9") "1000"))
        "a" "t1" 0 5).2.getTable "t1").map Table.otp = some "1000" ∧
    ((oneTableState (mkTable .active (some "sess-9") "1000")).getTable "t1").map Table.otp
      = some "1000" := by
  have h := cancelTableRoute_eq (oneTableState (mkTable .active (some "sess-9") "1000"))
    "a" "t1" (mkTable .active (some "sess-9") "1000") 0 5 (by decide) rfl (by decide) (by decide)
  rw [h]
  refine ⟨rfl, ?_, by decide⟩
  simp [DBState.getTable, oneTableState, mkTable, List.find?, generateOtp_zero]

end Resto
